import Mathlib

/-!
Verification of `debug_vm_creation.py`, a single-file debug script that
prints a fixed narrative about a suspected VM-creation race condition.

Shallow embedding conventions:
* The wall clock is modelled as a natural number of milliseconds; the
  Python expression `int(time.time())` truncates the clock to whole
  seconds, which is `t / 1000` on this representation.
* Every observable action of the script is recorded in a trace of
  `Effect` values: each Python `print(s)` call becomes one
  `Effect.stdoutLine s`; a network call or file access, had the script
  performed one, would be a `netConnect` or `fileRead`/`fileWrite`
  effect.  The script under study only ever prints.
* The module-level run (`if __name__ == "__main__"`) is modelled by
  `runModule`, parameterised over the value of the `OMA_API_BASE`
  constant, the command-line arguments and the environment, so that
  independence from those inputs is a provable statement rather than a
  vacuous one.
* Python import semantics are modelled by `runScript`: the interpreter
  resolves the module's imports in order before executing any statement;
  a missing module raises ImportError, so nothing is printed and the
  process exits with a non-zero status.
* A failed write to standard output raises an uncaught OSError in
  Python, terminating the process with a non-zero status; `processExit`
  models this with a per-write success oracle.
-/

/-- The module-level constant `OMA_API_BASE` from the source. -/
def OMA_API_BASE : String := "http://localhost:8080"

/-- The modules imported at load time, in source order (lines 6-9). -/
def moduleImports : List String := ["requests", "json", "time", "sys"]

/-- Observable effects of the embedded script.  `print` produces a
`stdoutLine`; the other constructors are the effect alphabet a network
call or file access would use. -/
inductive Effect where
  | stdoutLine (s : String)
  | netConnect (url : String)
  | fileRead (path : String)
  | fileWrite (path : String)
deriving DecidableEq, Repr

/-- Whether an effect is a write of one line to standard output. -/
def isStdoutLine : Effect → Bool
  | Effect.stdoutLine _ => true
  | _ => false

/-- The lines written to standard output, extracted from a trace. -/
def stdoutOf (es : List Effect) : List String :=
  es.filterMap fun e =>
    match e with
    | Effect.stdoutLine s => some s
    | _ => none

/-- `int(time.time())`: the wall clock (in milliseconds) truncated to
whole seconds. -/
def intTime (t : Nat) : Nat := t / 1000

/-- The `test_vm_request` dictionary: three string fields, in insertion
order `vm_id`, `vm_name`, `failover_job_id`. -/
structure TestVMRequest where
  vm_id : String
  vm_name : String
  failover_job_id : String
deriving DecidableEq, Repr

/-- Construction of `test_vm_request` (source lines 17-21) from the
clock reading `t`. -/
def mkTestVMRequest (t : Nat) : TestVMRequest :=
  { vm_id := "debug-test-vm-001"
    vm_name := "debug-test-vm-001"
    failover_job_id := "debug-test-" ++ toString (intTime t) }

/-- The key/value pairs of the dictionary, in insertion order. -/
def requestFields (r : TestVMRequest) : List (String × String) :=
  [("vm_id", r.vm_id), ("vm_name", r.vm_name),
   ("failover_job_id", r.failover_job_id)]

/-- JSON escaping of a single character, as `json.dumps` performs it for
the characters that can occur here. -/
def jsonEscapeChar (c : Char) : String :=
  if c = '"' then "\\\""
  else if c = '\\' then "\\\\"
  else if c = '\n' then "\\n"
  else if c = '\r' then "\\r"
  else if c = '\t' then "\\t"
  else String.singleton c

/-- JSON escaping of a string. -/
def jsonEscape (s : String) : String :=
  String.join (s.toList.map jsonEscapeChar)

/-- A JSON string literal: the escaped text in double quotes. -/
def jsonStr (s : String) : String := "\"" ++ jsonEscape s ++ "\""

/-- `json.dumps(d, indent=2)` for a dictionary with string keys and
string values, preserving insertion order. -/
def jsonDumpsIndent2 (kvs : List (String × String)) : String :=
  match kvs with
  | [] => "\x7b\x7d"
  | _ =>
    "\x7b\n" ++
    String.intercalate ",\n"
      (kvs.map fun kv => "  " ++ jsonStr kv.1 ++ ": " ++ jsonStr kv.2) ++
    "\n\x7d"

/-- The function `test_vm_creation_timing` (source lines 13-39): given
the clock reading `t` (milliseconds), it produces the trace of effects
of its twelve `print` calls and returns `True`. -/
def test_vm_creation_timing (t : Nat) : List Effect × Bool :=
  let test_vm_request := mkTestVMRequest t
  ([Effect.stdoutLine ("=== DEBUGGING VM CREATION AND ROOT VOLUME TIMING ==="),
    Effect.stdoutLine ("1. Creating test VM with request: " ++
      jsonDumpsIndent2 (requestFields test_vm_request)),
    Effect.stdoutLine ("2. Monitoring VM creation timing..."),
    Effect.stdoutLine ("RACE CONDITION SCENARIO:"),
    Effect.stdoutLine ("  Step 1: VM creation submitted to CloudStack"),
    Effect.stdoutLine ("  Step 2: CloudStack returns job ID immediately"),
    Effect.stdoutLine ("  Step 3: WaitForAsyncJob waits for job completion"),
    Effect.stdoutLine ("  Step 4: waitForVMFullyProvisioned waits for root volume"),
    Effect.stdoutLine ("  Step 5: VM operations proceed..."),
    Effect.stdoutLine (""),
    Effect.stdoutLine ("ISSUE: If Step 4 times out or fails to detect root volume,"),
    Effect.stdoutLine ("       the subsequent root volume deletion will fail!")],
   true)

/-- The `if __name__ == "__main__"` guard (source lines 41-42): it calls
`test_vm_creation_timing`, discards the return value, and the
interpreter exits with status 0.  The value of the `OMA_API_BASE`
constant, the command-line arguments and the environment are in scope
but never read. -/
def runModule (oma_api_base : String) (argv : List String)
    (env : List (String × String)) (t : Nat) : List Effect × Nat :=
  let _ := oma_api_base
  let _ := argv
  let _ := env
  let r := test_vm_creation_timing t
  (r.1, 0)

/-- Loading the script: the interpreter resolves every import before
executing any other statement.  If one of the imported modules is not
available, an ImportError terminates the process with a non-zero status
and nothing is printed; otherwise the module body runs. -/
def runScript (available : List String) (oma_api_base : String)
    (argv : List String) (env : List (String × String)) (t : Nat) :
    List Effect × Nat :=
  if moduleImports.all (fun m => m ∈ available) then
    runModule oma_api_base argv env t
  else
    ([], 1)

/-- Exit status of a run in which the write of the `i`-th output line
succeeds exactly when `writeOk i`: a failed `print` raises an uncaught
OSError and the process exits with status 1; otherwise it exits 0. -/
def processExit (writeOk : Nat → Bool) (t : Nat) : Nat :=
  let es := (test_vm_creation_timing t).1
  if (List.range es.length).all writeOk then 0 else 1

/-- The first printed line. -/
def headerLine : String :=
  "=== DEBUGGING VM CREATION AND ROOT VOLUME TIMING ==="

/-- The second printed line, showing the serialized request. -/
def requestLine (r : TestVMRequest) : String :=
  "1. Creating test VM with request: " ++ jsonDumpsIndent2 (requestFields r)

/-- The third printed line. -/
def monitoringLine : String := "2. Monitoring VM creation timing..."

/-- The five numbered race-condition step lines. -/
def stepLines : List String :=
  ["  Step 1: VM creation submitted to CloudStack",
   "  Step 2: CloudStack returns job ID immediately",
   "  Step 3: WaitForAsyncJob waits for job completion",
   "  Step 4: waitForVMFullyProvisioned waits for root volume",
   "  Step 5: VM operations proceed..."]

/-- The closing warning lines (a blank line and the two ISSUE lines). -/
def warningLines : List String :=
  ["",
   "ISSUE: If Step 4 times out or fails to detect root volume,",
   "       the subsequent root volume deletion will fail!"]

/-- The fixed narrative tail: the scenario header, the five steps, and
the closing warning, in order. -/
def fixedTail : List String :=
  "RACE CONDITION SCENARIO:" :: (stepLines ++ warningLines)

/-- The full standard-output text of a run with clock reading `t`. -/
def canonicalLines (t : Nat) : List String :=
  headerLine :: requestLine (mkTestVMRequest t) :: monitoringLine :: fixedTail

/-- C1: for every invocation, `test_vm_creation_timing` terminates and
returns `True`, and the `__main__` entry point exits with status 0, with
no exit-code differentiation. -/
theorem c1_always_succeeds (base : String) (argv : List String)
    (env : List (String × String)) (t : Nat) :
    (test_vm_creation_timing t).2 = true ∧ (runModule base argv env t).2 = 0 :=
  ⟨rfl, rfl⟩

/-- C2: the printed failover job identifier is the fixed literal
"debug-test-" followed by a numeric value, and when one invocation
happens no later than another (clock reading `t1 ≤ t2`), the numeric
value of the first is at most that of the second. -/
theorem c2_job_id_monotone (t1 t2 : Nat) (h : t1 ≤ t2) :
    (mkTestVMRequest t1).failover_job_id = "debug-test-" ++ toString (intTime t1) ∧
    (mkTestVMRequest t2).failover_job_id = "debug-test-" ++ toString (intTime t2) ∧
    intTime t1 ≤ intTime t2 :=
  ⟨rfl, rfl, Nat.div_le_div_right h⟩

/-- Witness for C2 at clock readings 1000 ms and 2500 ms. -/
theorem c2_job_id_monotone_witness :
    (1000 : Nat) ≤ 2500 ∧
    ((mkTestVMRequest 1000).failover_job_id = "debug-test-" ++ toString (intTime 1000) ∧
     (mkTestVMRequest 2500).failover_job_id = "debug-test-" ++ toString (intTime 2500) ∧
     intTime 1000 ≤ intTime 2500) :=
  ⟨by decide, c2_job_id_monotone 1000 2500 (by decide)⟩

/-- C3: every effect of a run, both of `test_vm_creation_timing` and of
the full module run, is a write to standard output; in particular no
network connection and no file access occurs, even though the
`OMA_API_BASE` constant is in scope. -/
theorem c3_only_stdout_effects (base : String) (argv : List String)
    (env : List (String × String)) (t : Nat) :
    ((test_vm_creation_timing t).1.all isStdoutLine) = true ∧
    ((runModule base argv env t).1.all isStdoutLine) = true :=
  ⟨rfl, rfl⟩

/-- C4: the narrative lines (everything after the three introductory
lines) are the fixed scenario header, five step lines and closing
warning, identical and in the same order for any two runs. -/
theorem c4_fixed_narrative (t1 t2 : Nat) :
    (stdoutOf (test_vm_creation_timing t1).1).drop 3 = fixedTail ∧
    (stdoutOf (test_vm_creation_timing t1).1).drop 3 =
      (stdoutOf (test_vm_creation_timing t2).1).drop 3 :=
  ⟨rfl, rfl⟩

/-- C5: two module runs with the same clock reading but different
values of the `OMA_API_BASE` constant, different command-line arguments
and different environments produce identical traces and exit status:
those inputs are dead configuration. -/
theorem c5_independent_of_ambient (base1 base2 : String)
    (argv1 argv2 : List String) (env1 env2 : List (String × String))
    (t : Nat) :
    runModule base1 argv1 env1 t = runModule base2 argv2 env2 t :=
  rfl

/-- C6: the process exits with a non-zero status exactly when some
standard-output write fails, and under normal conditions (all writes
succeed) it exits 0: writing to standard output is the only failure
mode. -/
theorem c6_fail_iff_write_fail (writeOk : Nat → Bool) (t : Nat) :
    (processExit writeOk t ≠ 0 ↔
      ¬ ((List.range (test_vm_creation_timing t).1.length).all writeOk = true)) ∧
    processExit (fun _ => true) t = 0 := by
  constructor
  · by_cases h : (List.range (test_vm_creation_timing t).1.length).all writeOk = true
    · simp [processExit, h]
    · simp [processExit, h]
  · rfl

/-- C7: every run builds exactly one request descriptor with exactly
three fields — the literal VM id, the literal VM name, and the job id
formed from the literal "debug-test-" and the truncated clock — prints
it serialized in the second output line, and every other output line is
fixed text independent of the descriptor. -/
theorem c7_single_request (t : Nat) :
    mkTestVMRequest t =
      { vm_id := "debug-test-vm-001", vm_name := "debug-test-vm-001",
        failover_job_id := "debug-test-" ++ toString (intTime t) } ∧
    (requestFields (mkTestVMRequest t)).length = 3 ∧
    stdoutOf (test_vm_creation_timing t).1 =
      headerLine :: requestLine (mkTestVMRequest t) :: monitoringLine :: fixedTail ∧
    (test_vm_creation_timing t).2 = true :=
  ⟨rfl, rfl, rfl, rfl⟩

/-- C8: the clock reading is the only source of nondeterminism: the
standard output of any module run is a function of `t` alone, and the
return value is always the same. -/
theorem c8_deterministic_in_clock (base : String) (argv : List String)
    (env : List (String × String)) (t : Nat) :
    stdoutOf (runModule base argv env t).1 = canonicalLines t ∧
    (runModule base argv env t).2 = 0 ∧
    (test_vm_creation_timing t).2 = true :=
  ⟨rfl, rfl, rfl⟩

/-- C9: the numeric suffix of the failover job identifier is the clock
truncated to whole seconds, so two invocations within the same second
produce identical identifiers: the identifier is not unique. -/
theorem c9_same_second_same_id (t1 t2 : Nat) (h : intTime t1 = intTime t2) :
    (mkTestVMRequest t1).failover_job_id = "debug-test-" ++ toString (intTime t1) ∧
    (mkTestVMRequest t1).failover_job_id = (mkTestVMRequest t2).failover_job_id := by
  refine ⟨rfl, ?_⟩
  simp [mkTestVMRequest, h]

/-- Witness for C9: the distinct clock readings 2000 ms and 2500 ms lie
in the same second and yield the same identifier. -/
theorem c9_same_second_same_id_witness :
    (2000 : Nat) ≠ 2500 ∧ intTime 2000 = intTime 2500 ∧
    ((mkTestVMRequest 2000).failover_job_id = "debug-test-" ++ toString (intTime 2000) ∧
     (mkTestVMRequest 2000).failover_job_id = (mkTestVMRequest 2500).failover_job_id) :=
  ⟨by decide, by decide, c9_same_second_same_id 2000 2500 (by decide)⟩

/-- C10: the module imports `requests` and `sys` at load time even
though they are never used; if `requests` is unavailable, the script
fails at import, printing nothing and exiting with a non-zero status. -/
theorem c10_import_precondition (available : List String) (base : String)
    (argv : List String) (env : List (String × String)) (t : Nat)
    (h : "requests" ∉ available) :
    "requests" ∈ moduleImports ∧ "sys" ∈ moduleImports ∧
    runScript available base argv env t = ([], 1) := by
  refine ⟨by decide, by decide, ?_⟩
  simp [runScript, moduleImports, h]

/-- Witness for C10: with only `json`, `time` and `sys` available the
script prints nothing and exits 1. -/
theorem c10_import_precondition_witness :
    "requests" ∉ (["json", "time", "sys"] : List String) ∧
    ("requests" ∈ moduleImports ∧ "sys" ∈ moduleImports ∧
     runScript ["json", "time", "sys"] OMA_API_BASE [] [] 0 = ([], 1)) :=
  ⟨by decide, c10_import_precondition ["json", "time", "sys"] OMA_API_BASE [] [] 0 (by decide)⟩
